import Mathlib

/-!
Shallow embedding of the `rovr` Oculus SDK binding (Rust) in Lean 4, together
with proofs of the specification claims about it.

Source files embedded:
- `src/lib.rs` — the `OculusError` taxonomy and the `Eye` enum;
- `src/shim.rs` — `Context::new` / `Drop for Context` over the process-wide
  `ACTIVE_CONTEXT` atomic flag, the `ovr_invoke!` error path, `load_ovr`
  library-name construction, `RenderContext` (cached per-eye data,
  `target_texture_size`, `projection_matrix`, `create_binding`),
  `TextureBinding::new`, and `Frame::eye_poses`;
- `src/ffi/mod.rs` — the `ovrResult` success/failure predicates, the C struct
  value types that the shim builds or reads, and `FunctionTable::load`
  (sequential symbol resolution over the fixed list in `function_table!`).

Native (closed-source) entry points are modelled as explicit parameters or
environment fields: their results are data the embedded code consumes, never
reimplemented. `f32`/`f64` values are carried as opaque `Float`s — the binding
performs no floating-point arithmetic on them, only moves them between fields.
-/

set_option autoImplicit false

namespace Rovr

/- ===== src/ffi/mod.rs: status codes =====
`pub type ovrResult = i32;`
`pub fn ovrSuccess(r: ovrResult) -> bool { return r > 0; }`
`pub fn ovrFailure(r: ovrResult) -> bool { return !ovrSuccess(r); }` -/

/-- `ovrResult` is a C `i32` status code; modelled as `Int`. -/
abbrev ovrResult := Int

/-- `ffi::ovrSuccess`: a result is a success exactly when it is strictly positive. -/
def ovrSuccessFn (r : ovrResult) : Bool := r > 0

/-- `ffi::ovrFailure`: negation of `ovrSuccess`. -/
def ovrFailure (r : ovrResult) : Bool := !(ovrSuccessFn r)

/- ===== src/ffi/mod.rs: value types used by the shim ===== -/

/-- `ffi::ovrSizei` — `{ w: i32, h: i32 }`. -/
structure ovrSizei where
  w : Int
  h : Int

/-- `ffi::ovrVector2i` — `{ x: i32, y: i32 }`. -/
structure ovrVector2i where
  x : Int
  y : Int

/-- `ffi::ovrRecti` — `{ Pos: ovrVector2i, Size: ovrSizei }`. -/
structure ovrRecti where
  Pos : ovrVector2i
  Size : ovrSizei

/-- `ffi::ovrVector3f` — `{ x: f32, y: f32, z: f32 }`. -/
structure ovrVector3f where
  x : Float
  y : Float
  z : Float

/-- `ffi::ovrQuatf` — `{ x: f32, y: f32, z: f32, w: f32 }`. -/
structure ovrQuatf where
  x : Float
  y : Float
  z : Float
  w : Float

/-- `ffi::ovrPosef` — `{ Orientation: ovrQuatf, Position: ovrVector3f }`. -/
structure ovrPosef where
  Orientation : ovrQuatf
  Position : ovrVector3f

/-- `ffi::ovrFovPort` — four frustum tangents. -/
structure ovrFovPort where
  UpTan : Float
  DownTan : Float
  LeftTan : Float
  RightTan : Float

/-- `ffi::ovrMatrix4f` — `{ M: [[f32; 4]; 4] }`, row-major; the 4×4 array is
modelled as a function of the two indices. -/
structure ovrMatrix4f where
  M : Fin 4 → Fin 4 → Float

/-- `ffi::ovrEyeRenderDesc`, restricted to the fields the shim reads
(`Fov` and `HmdToEyeViewOffset`; the remaining fields are never consumed). -/
structure ovrEyeRenderDesc where
  Fov : ovrFovPort
  HmdToEyeViewOffset : ovrVector3f

/-- `ffi::ovrRenderAPI_OpenGL : ovrRenderAPIType = 1`. -/
def ovrRenderAPI_OpenGL : Nat := 1

/-- `ffi::ovrProjection_RightHanded = 0x01`. -/
def ovrProjection_RightHanded : Nat := 0x01

/-- `ffi::ovrProjection_ClipRangeOpenGL = 0x08`. -/
def ovrProjection_ClipRangeOpenGL : Nat := 0x08

/- ===== src/lib.rs and src/shim.rs: error taxonomy =====
`lib.rs` declares `SdkError(&'static str)` and `DuplicateContext`; `shim.rs`
additionally produces `OculusRuntimeError` (via `try_load!`) and `NoHeadset`. -/

/-- `OculusError` — the binding's error enum, as used across `lib.rs`/`shim.rs`. -/
inductive OculusError where
  | SdkError (description : String)
  | DuplicateContext
  | OculusRuntimeError (message : String)
  | NoHeadset
deriving DecidableEq

/-- `Eye` — `lib.rs`: `pub enum Eye { Left, Right }`. -/
inductive Eye where
  | Left
  | Right
deriving DecidableEq

/- ===== src/shim.rs: the ovr_invoke! macro =====
```
macro_rules! ovr_invoke {
    ($x:expr) => {
        if ovrFailure($x) {
            return Err(OculusError::SdkError("$x failed"));
        }
    }
}
```
In Rust `macro_rules!`, a metavariable is NOT substituted inside a string
literal: the message handed to `SdkError` is the five-byte-plus text
`$x failed`, identical for every call site. The first argument below is the
call-site expression text, recorded to show the message never depends on it. -/

/-- The string `ovr_invoke!` hands to `OculusError::SdkError` for the call-site
expression text `x`: the literal `"$x failed"`, with no substitution. -/
def ovr_invoke_message (x : String) : String :=
  let _ := x
  "$x failed"

/-- `ovr_invoke!($x)`: on a failing `ovrResult`, return
`Err(OculusError::SdkError("$x failed"))`; otherwise fall through. -/
def ovr_invoke (x : String) (result : ovrResult) : Except OculusError Unit :=
  if ovrFailure result then
    Except.error (OculusError.SdkError (ovr_invoke_message x))
  else
    Except.ok ()

/- ===== src/shim.rs: load_ovr =====
`PRODUCT_VERSION = "0"`, `MAJOR_VERSION = "5"`. The three `cfg`-selected
variants of `load_ovr` build the library name handed to
`UnsafeDynamicLibrary::open`. The pointer bit-width `cfg!` test is modelled as
the boolean argument `w64` (`true` for 64-bit targets). -/

def PRODUCT_VERSION : String := "0"

def MAJOR_VERSION : String := "5"

/-- Windows `load_ovr`: `format!("LibOVRRT{}_{}_{}", bits, PRODUCT_VERSION, MAJOR_VERSION)`. -/
def load_ovr_windows_name (w64 : Bool) : String :=
  let bits := if w64 then "64" else "32"
  "LibOVRRT" ++ bits ++ "_" ++ PRODUCT_VERSION ++ "_" ++ MAJOR_VERSION

/-- macOS `load_ovr`:
`format!("LibOVRRT_{0}.framework/Versions/{1}/LibOVRRT_{0}", PRODUCT_VERSION, MAJOR_VERSION)`. -/
def load_ovr_macos_name : String :=
  "LibOVRRT_" ++ PRODUCT_VERSION ++ ".framework/Versions/" ++ MAJOR_VERSION ++
    "/LibOVRRT_" ++ PRODUCT_VERSION

/-- Linux `load_ovr`:
`format!("/usr/local/lib/libOVRRT{}_{}.so.{}", bits, PRODUCT_VERSION, MAJOR_VERSION)`. -/
def load_ovr_linux_name (w64 : Bool) : String :=
  let bits := if w64 then "64" else "32"
  "/usr/local/lib/libOVRRT" ++ bits ++ "_" ++ PRODUCT_VERSION ++ ".so." ++ MAJOR_VERSION

/-- Modelled from the spec: the file-name pattern the specification states for
Windows, `LibOVRRT<bits>_<product>_<major>`. -/
def spec_windows_name (w64 : Bool) : String :=
  "LibOVRRT" ++ (if w64 then "64" else "32") ++ "_" ++ PRODUCT_VERSION ++ "_" ++ MAJOR_VERSION

/-- Modelled from the spec: the bundle path the specification states for macOS,
`LibOVRRT_<product>.framework/Versions/<major>/LibOVRRT_<product>`. -/
def spec_macos_name : String :=
  "LibOVRRT_" ++ PRODUCT_VERSION ++ ".framework/Versions/" ++ MAJOR_VERSION ++
    "/LibOVRRT_" ++ PRODUCT_VERSION

/-- Modelled from the spec: the file name the specification states for Linux,
`libOVRRT<bits>_<product>.so.<major>` (no directory component). -/
def spec_linux_name (w64 : Bool) : String :=
  "libOVRRT" ++ (if w64 then "64" else "32") ++ "_" ++ PRODUCT_VERSION ++ ".so." ++ MAJOR_VERSION

/- ===== src/shim.rs: Context::new and Drop for Context =====
The native effects `Context::new` depends on are gathered in `ContextEnv`:
whether `load_ovr` succeeds, whether `ffi::FunctionTable::load` succeeds (both
yield `String` errors wrapped by `try_load!` into `OculusRuntimeError`), and
the `ovrResult` of the native `ovr_Initialize` call. The constructed `Context`
value itself (the held function table) is abstracted to `Unit`. The
process-wide `ACTIVE_CONTEXT: AtomicBool` is threaded explicitly: each
operation takes the flag's current value and returns its new value. -/

/-- Results of the native-facing steps of `shim::Context::new`. -/
structure ContextEnv where
  load_ovr : Except String Unit
  table_load : Except String Unit
  initialize_result : ovrResult

/-- `shim::Context::new`, with the process-wide `ACTIVE_CONTEXT` value passed
in and the updated flag value returned alongside the `Result`.
`compare_and_swap(false, true, SeqCst)` returns the previous value and leaves
the flag `true` in either case; every subsequent `return Err(...)` path leaves
the flag untouched. -/
def Context.new (env : ContextEnv) (ACTIVE_CONTEXT : Bool) :
    Except OculusError Unit × Bool :=
  let was_active := ACTIVE_CONTEXT
  let flag := true
  if was_active then
    (Except.error OculusError.DuplicateContext, flag)
  else
    match env.load_ovr with
    | Except.error v => (Except.error (OculusError.OculusRuntimeError v), flag)
    | Except.ok _ =>
      match env.table_load with
      | Except.error v => (Except.error (OculusError.OculusRuntimeError v), flag)
      | Except.ok _ =>
        match ovr_invoke "function_table.ovr_Initialize(&params)" env.initialize_result with
        | Except.error e => (Except.error e, flag)
        | Except.ok _ => (Except.ok (), flag)

/-- Observable events of `Drop for Context`, in order of occurrence. -/
inductive DropEvent where
  | ovr_Shutdown
  | clear_flag
deriving DecidableEq

/-- `Drop for shim::Context`:
`self.invoker().ovr_Shutdown(); let was_active = ACTIVE_CONTEXT.swap(false, SeqCst); assert!(was_active);`
Returns the event trace, the new flag value, and whether `assert!` panicked. -/
def Context.drop (ACTIVE_CONTEXT : Bool) : List DropEvent × Bool × Bool :=
  let events := [DropEvent.ovr_Shutdown, DropEvent.clear_flag]
  let was_active := ACTIVE_CONTEXT
  (events, false, !was_active)

/- ===== src/ffi/mod.rs: FunctionTable::load =====
The `function_table!` macro expands to a struct with one function-pointer
field per listed entry point, and `FunctionTable::load` initialises every
field in listed order with
`$func_name: mem::transmute(try!(lib.symbol::<*const libc::c_void>(stringify!($func_name))))`.
`try!` aborts construction with the first `Err`, so resolution is a
sequential traversal of the fixed name list. Resolved pointers are modelled
as `Nat` addresses; the symbol resolver (`UnsafeDynamicLibrary::symbol`,
whose errors are the platform loader's error strings) is a parameter. -/

/-- The fixed, compile-time list of entry-point names passed to
`function_table!` in `src/ffi/mod.rs`, in source order. -/
def functionTableNames : List String :=
  ["ovr_Detect",
   "ovr_Initialize",
   "ovr_Shutdown",
   "ovr_Create",
   "ovr_Destroy",
   "ovr_GetHmdDesc",
   "ovr_ConfigureTracking",
   "ovr_RecenterPose",
   "ovr_GetFovTextureSize",
   "ovr_GetRenderDesc",
   "ovr_CreateMirrorTextureGL",
   "ovr_DestroyMirrorTexture",
   "ovr_CreateSwapTextureSetGL",
   "ovr_DestroySwapTextureSet",
   "ovr_GetPredictedDisplayTime",
   "ovr_GetTrackingState",
   "ovr_CalcEyePoses",
   "ovr_SubmitFrame",
   "ovrMatrix4f_Projection"]

/-- Sequential resolution of a list of symbol names: the shape of the struct
initialiser `function_table!` expands to, with `try!` short-circuiting on the
first failed lookup. -/
def resolveAll (symbol : String → Except String Nat) : List String → Except String (List Nat)
  | [] => Except.ok []
  | n :: rest =>
    match symbol n with
    | Except.error e => Except.error e
    | Except.ok p =>
      match resolveAll symbol rest with
      | Except.error e => Except.error e
      | Except.ok ps => Except.ok (p :: ps)

/-- `ffi::FunctionTable::load`: resolve every name in `functionTableNames`
eagerly, in order, failing whole with the first lookup error. -/
def FunctionTable.load (symbol : String → Except String Nat) : Except String (List Nat) :=
  resolveAll symbol functionTableNames

/- ===== src/shim.rs: RenderContext ===== -/

/-- `shim::RenderContext`, restricted to the cached per-eye data its methods
read (`eye_texture_sizes`, `fovs`, `offsets`; index 0 = left, 1 = right,
modelled as pairs). The borrowed `owning_hmd` and the `PhantomData` render
marker carry no data the embedded methods consume. -/
structure RenderContext where
  eye_texture_sizes : ovrSizei × ovrSizei
  fovs : ovrFovPort × ovrFovPort
  offsets : ovrVector3f × ovrVector3f

/-- Native responses consumed by `CreateRenderContext::new` for
`RenderContext`: the `ovrResult` of `ovrHmd_ConfigureRendering` and its two
out `ovrEyeRenderDesc`s, the direct-mode flag with the `ovrHmd_AttachToWindow`
result, and the HMD's `MaxEyeFov` with the native `ovrHmd_GetFovTextureSize`
function (arguments: eye index, fov, pixels-per-display-pixel). -/
structure HmdEnv where
  configure_rendering_result : ovrResult
  eye_render_desc : ovrEyeRenderDesc × ovrEyeRenderDesc
  is_direct : Bool
  attach_result : ovrResult
  MaxEyeFov : ovrFovPort × ovrFovPort
  getFovTextureSize : Nat → ovrFovPort → Float → ovrSizei

/-- `CreateRenderContext::new` for `shim::RenderContext`: configure rendering
(`ovr_invoke!`), attach to the window when the HMD is in direct mode
(`ovr_invoke!`), take `offsets` and `fovs` from the returned render
descriptors, and cache each eye's `ovrHmd_GetFovTextureSize(eye, MaxEyeFov[eye], 1.0)`. -/
def RenderContext.new (hmd : HmdEnv) : Except OculusError RenderContext :=
  match ovr_invoke "invoker.ovrHmd_ConfigureRendering(...)" hmd.configure_rendering_result with
  | Except.error e => Except.error e
  | Except.ok _ =>
    match (if hmd.is_direct then
             ovr_invoke "invoker.ovrHmd_AttachToWindow(...)" hmd.attach_result
           else Except.ok ()) with
    | Except.error e => Except.error e
    | Except.ok _ =>
      let offsets := (hmd.eye_render_desc.1.HmdToEyeViewOffset,
                      hmd.eye_render_desc.2.HmdToEyeViewOffset)
      let fovs := (hmd.eye_render_desc.1.Fov, hmd.eye_render_desc.2.Fov)
      let eye_texture_sizes := (hmd.getFovTextureSize 0 hmd.MaxEyeFov.1 1.0,
                                hmd.getFovTextureSize 1 hmd.MaxEyeFov.2 1.0)
      Except.ok { eye_texture_sizes := eye_texture_sizes,
                  fovs := fovs,
                  offsets := offsets }

/-- Rust's `as` cast from `i32` to `u32`: wrap modulo `2^32`. -/
def i32_as_u32 (x : Int) : Nat := (x % 4294967296).toNat

/-- `RenderContext::target_texture_size`: select the cached size for the eye
and return `(size.w as u32, size.h as u32)`. -/
def RenderContext.target_texture_size (rc : RenderContext) (eye : Eye) : Nat × Nat :=
  let size := match eye with
    | Eye.Left => rc.eye_texture_sizes.1
    | Eye.Right => rc.eye_texture_sizes.2
  (i32_as_u32 size.w, i32_as_u32 size.h)

/-- The per-eye fov selection performed inside `projection_matrix`
(`match eye { Left => self.fovs[0], Right => self.fovs[1] }`). -/
def RenderContext.eyeFov (rc : RenderContext) (eye : Eye) : ovrFovPort :=
  match eye with
  | Eye.Left => rc.fovs.1
  | Eye.Right => rc.fovs.2

/-- `RenderContext::projection_matrix`: call the native
`ovrMatrix4f_Projection` (a parameter here) on the selected eye's cached fov
with `ovrProjection_RightHanded | ovrProjection_ClipRangeOpenGL`, then
transpose the row-major result into the column-major `Matrix4`
(the source lists all 16 entries `pm[j][i]` explicitly). -/
def RenderContext.projection_matrix
    (ovrMatrix4f_Projection : ovrFovPort → Float → Float → Nat → ovrMatrix4f)
    (rc : RenderContext) (eye : Eye) (near_z far_z : Float) :
    Fin 4 → Fin 4 → Float :=
  let fov := rc.eyeFov eye
  let flags := Nat.lor ovrProjection_RightHanded ovrProjection_ClipRangeOpenGL
  let matrix := ovrMatrix4f_Projection fov near_z far_z flags
  fun i j => matrix.M j i

/-- Exchange the two stored per-eye fields of view (swap the left/right eye
labels on the cached `fovs`). -/
def RenderContext.swap_fovs (rc : RenderContext) : RenderContext :=
  { rc with fovs := (rc.fovs.2, rc.fovs.1) }

/-- The opposite eye label. -/
def Eye.other : Eye → Eye
  | Eye.Left => Eye.Right
  | Eye.Right => Eye.Left

/- ===== src/shim.rs: TextureBinding ===== -/

/-- `shim::TextureBinding` — `{ textures: [ffi::ovrGLTexture; 2] }` (left, right). -/
structure ovrGLTexture where
  API : Nat
  TextureSize : ovrSizei
  RenderViewport : ovrRecti
  TexId : Nat

/-- The inner `texture_struct` helper of `TextureBinding::new`: viewport at
position `(0, 0)` with the given size, OpenGL API tag, `TextureSize` and
`TexId` from the inputs (remaining bytes of the native union are
`Default`-zero padding, not modelled). -/
def texture_struct (size : ovrSizei) (id : Nat) : ovrGLTexture :=
  let viewport : ovrRecti :=
    { Pos := { x := 0, y := 0 }, Size := size }
  { API := ovrRenderAPI_OpenGL,
    TextureSize := size,
    RenderViewport := viewport,
    TexId := id }

/-- `shim::TextureBinding` value: the two per-eye `ovrGLTexture`s. -/
structure TextureBinding where
  textures : ovrGLTexture × ovrGLTexture

/-- `TextureBinding::new`: build the left and right `ovrGLTexture` from the
given `(size, id)` pairs. Pure data construction — no native call appears in
the source body and none is modelled. -/
def TextureBinding.new (left_pair : ovrSizei × Nat) (right_pair : ovrSizei × Nat) :
    TextureBinding :=
  { textures := (texture_struct left_pair.1 left_pair.2,
                 texture_struct right_pair.1 right_pair.2) }

/-- `RenderContext::create_binding`: delegate to `TextureBinding::new` with the
cached per-eye texture sizes and the caller's texture ids. -/
def RenderContext.create_binding (rc : RenderContext) (tex_id_left tex_id_right : Nat) :
    TextureBinding :=
  TextureBinding.new (rc.eye_texture_sizes.1, tex_id_left)
    (rc.eye_texture_sizes.2, tex_id_right)

/- ===== src/shim.rs: operations callable on a RenderContext =====
Every public method of `RenderContext` takes `&self` (a shared borrow), so
none can replace or mutate the cached per-eye data; each embedded operation
therefore returns the receiver unchanged (outputs are modelled by the
dedicated functions above). -/

/-- The operations callable on a live `RenderContext`. -/
inductive RCOp where
  | dismiss_hsw
  | recenter_pose
  | target_texture_size (eye : Eye)
  | projection_matrix (eye : Eye) (near_z far_z : Float)
  | create_binding (tex_id_left tex_id_right : Nat)

/-- Effect of one `&self` method call on the `RenderContext` value itself. -/
def RCOp.apply (rc : RenderContext) : RCOp → RenderContext
  | RCOp.dismiss_hsw => rc
  | RCOp.recenter_pose => rc
  | RCOp.target_texture_size _ => rc
  | RCOp.projection_matrix _ _ _ => rc
  | RCOp.create_binding _ _ => rc

/-- Apply a sequence of `RenderContext` method calls. -/
def applyOps (rc : RenderContext) : List RCOp → RenderContext
  | [] => rc
  | op :: rest => applyOps (RCOp.apply rc op) rest

/- ===== src/shim.rs: Frame::eye_poses ===== -/

/-- `shim::FrameEyePose` — eye label, orientation `(w, [x, y, z])`, and
position `[x, y, z]` (source types `Quaternion` and `Vector3`). -/
structure FrameEyePose where
  eye : Eye
  orientation : Float × (Float × Float × Float)
  position : Float × Float × Float

/-- One iteration of the `for i in hmd_struct.EyeRenderOrder.iter()` loop body:
map index 0 to `Eye::Left`, 1 to `Eye::Right`, panic (`none`) otherwise, and
repack `self.poses[i]`'s orientation and position. -/
def eyePoseFor (poses : Fin 2 → ovrPosef) : Nat → Option FrameEyePose
  | 0 =>
    let orientation := (poses 0).Orientation
    let position := (poses 0).Position
    some { eye := Eye.Left,
           orientation := (orientation.w, (orientation.x, orientation.y, orientation.z)),
           position := (position.x, position.y, position.z) }
  | 1 =>
    let orientation := (poses 1).Orientation
    let position := (poses 1).Position
    some { eye := Eye.Right,
           orientation := (orientation.w, (orientation.x, orientation.y, orientation.z)),
           position := (position.x, position.y, position.z) }
  | _ => none

/-- `Frame::eye_poses`: walk the HMD descriptor's `EyeRenderOrder` entries in
order, pushing one `FrameEyePose` per entry; `none` models the
`panic!("Too many eyes!")` arm for an out-of-range index. -/
def Frame.eye_poses (eyeRenderOrder : List Nat) (poses : Fin 2 → ovrPosef) :
    Option (List FrameEyePose) :=
  match eyeRenderOrder with
  | [] => some []
  | i :: rest =>
    match eyePoseFor poses i with
    | none => none
    | some p =>
      match Frame.eye_poses rest poses with
      | none => none
      | some ps => some (p :: ps)

/- ===================== Theorems ===================== -/

/-- The flag value returned by `Context.new` is `true` on every path: the
compare-and-swap either sets it or finds it already set, and no error path
restores it. -/
theorem Context.new_flag_true (env : ContextEnv) (b : Bool) : (Context.new env b).2 = true := by
  unfold Context.new
  cases b with
  | true => rfl
  | false =>
    cases henv : env.load_ovr with
    | error v => simp [henv]
    | ok u =>
      cases htl : env.table_load with
      | error v => simp [henv, htl]
      | ok u' =>
        cases hinv : ovr_invoke "function_table.ovr_Initialize(&params)" env.initialize_result with
        | error e => simp [henv, htl, hinv]
        | ok u'' => simp [henv, htl, hinv]

/-- A second `Context.new` while the flag is set yields `DuplicateContext` and
leaves the flag set, whatever the native environment would have done. -/
theorem Context.new_active_duplicate (env : ContextEnv) :
    Context.new env true = (Except.error OculusError.DuplicateContext, true) := rfl

/-- Claim C1: creating a second `Context` while one is alive yields
`DuplicateContext`; dropping the first clears the process-wide flag without
panicking, after which a creation attempt whose native steps succeed
(`load_ovr` ok, `FunctionTable::load` ok, `ovr_Initialize` succeeding)
returns `Ok`. -/
theorem context_second_create_duplicate_until_drop
    (env env2 env3 : ContextEnv)
    (h1 : (Context.new env false).1 = Except.ok ())
    (h3 : env3.load_ovr = Except.ok () ∧ env3.table_load = Except.ok () ∧
          ovrFailure env3.initialize_result = false) :
    (Context.new env2 (Context.new env false).2).1 = Except.error OculusError.DuplicateContext
    ∧ (Context.drop (Context.new env false).2).2.2 = false
    ∧ (Context.new env3 (Context.drop (Context.new env false).2).2.1).1 = Except.ok () := by
  have hflag : (Context.new env false).2 = true := Context.new_flag_true env false
  obtain ⟨h3a, h3b, h3c⟩ := h3
  refine ⟨?_, ?_, ?_⟩
  · rw [hflag, Context.new_active_duplicate]
  · rw [hflag]
    rfl
  · rw [hflag]
    show (Context.new env3 false).1 = Except.ok ()
    unfold Context.new
    simp only [h3a, h3b, ovr_invoke, h3c]
    rfl

/-- Concrete instantiation of `context_second_create_duplicate_until_drop`:
an all-succeeding native environment. -/
def envOkW : ContextEnv :=
  { load_ovr := Except.ok (),
    table_load := Except.ok (),
    initialize_result := 1 }

/-- Witness for claim C1 at the concrete environment `envOkW`. -/
theorem context_second_create_duplicate_until_drop_witness :
    (Context.new envOkW (Context.new envOkW false).2).1 = Except.error OculusError.DuplicateContext
    ∧ (Context.drop (Context.new envOkW false).2).2.2 = false
    ∧ (Context.new envOkW (Context.drop (Context.new envOkW false).2).2.1).1 = Except.ok () :=
  context_second_create_duplicate_until_drop envOkW envOkW envOkW rfl ⟨rfl, rfl, rfl⟩

/-- Claim C2: when `Context.new` fails for any reason other than
`DuplicateContext` (library load failure, function-table/symbol failure, or a
failing native `ovr_Initialize`), the call returns an error, that error is not
`DuplicateContext`, yet the process-wide flag is left `true`, so every
subsequent creation attempt — under any native environment — returns
`DuplicateContext` although no `Context` exists. -/
theorem context_new_failure_leaves_flag_set
    (env : ContextEnv)
    (hfail : (∃ v, env.load_ovr = Except.error v) ∨
             (∃ v, env.table_load = Except.error v) ∨
             ovrFailure env.initialize_result = true) :
    (∀ c, (Context.new env false).1 ≠ Except.ok c)
    ∧ (Context.new env false).1 ≠ Except.error OculusError.DuplicateContext
    ∧ (Context.new env false).2 = true
    ∧ ∀ env2, (Context.new env2 (Context.new env false).2).1 =
        Except.error OculusError.DuplicateContext := by
  have hflag : (Context.new env false).2 = true := Context.new_flag_true env false
  have herr : ∀ c, (Context.new env false).1 ≠ Except.ok c := by
    intro c
    unfold Context.new
    rcases hfail with ⟨v, hv⟩ | ⟨v, hv⟩ | hini
    · simp [hv]
    · cases henv : env.load_ovr with
      | error w => simp [henv]
      | ok u => simp [henv, hv]
    · cases henv : env.load_ovr with
      | error w => simp [henv]
      | ok u =>
        cases htl : env.table_load with
        | error w => simp [henv, htl]
        | ok u' => simp [henv, htl, ovr_invoke, hini]
  have hnotdup : (Context.new env false).1 ≠ Except.error OculusError.DuplicateContext := by
    unfold Context.new
    cases henv : env.load_ovr with
    | error w => simp [henv]
    | ok u =>
      cases htl : env.table_load with
      | error w => simp [henv, htl]
      | ok u' =>
        cases hini : ovrFailure env.initialize_result with
        | true => simp [henv, htl, ovr_invoke, hini, ovr_invoke_message]
        | false => simp [henv, htl, ovr_invoke, hini]
  refine ⟨herr, hnotdup, hflag, ?_⟩
  intro env2
  rw [hflag, Context.new_active_duplicate]

/-- Concrete instantiation for claim C2: the native library fails to load. -/
def envLoadFailW : ContextEnv :=
  { load_ovr := Except.error "libOVRRT64_0.so.5: cannot open shared object file",
    table_load := Except.ok (),
    initialize_result := 1 }

/-- Witness for claim C2 at the concrete environment `envLoadFailW`. -/
theorem context_new_failure_leaves_flag_set_witness :
    (∀ c, (Context.new envLoadFailW false).1 ≠ Except.ok c)
    ∧ (Context.new envLoadFailW false).1 ≠ Except.error OculusError.DuplicateContext
    ∧ (Context.new envLoadFailW false).2 = true
    ∧ ∀ env2, (Context.new env2 (Context.new envLoadFailW false).2).1 =
        Except.error OculusError.DuplicateContext :=
  context_new_failure_leaves_flag_set envLoadFailW
    (Or.inl ⟨"libOVRRT64_0.so.5: cannot open shared object file", rfl⟩)

/-- Claim C3: `Drop for Context` performs the native `ovr_Shutdown` before the
atomic clear of the process-wide flag, always leaves the flag `false`, and
panics exactly when the flag was already clear at the moment of the swap. -/
theorem context_drop_shutdown_then_clear (flag : Bool) :
    (Context.drop flag).1 = [DropEvent.ovr_Shutdown, DropEvent.clear_flag]
    ∧ (Context.drop flag).2.1 = false
    ∧ ((Context.drop flag).2.2 = true ↔ flag = false) := by
  cases flag <;> simp [Context.drop]

/-- Claim C4 (code bug): the string `ovr_invoke!` attaches to `SdkError` is the
literal `"$x failed"` for every call site — Rust performs no metavariable
substitution inside string literals — so the error does not name the attempted
native operation: two different call sites yield identical messages, and the
message differs from the operation-naming text the macro was documented to
supply. Evaluated at the failing result `-1` of the `ovr_Initialize` call
site in `Context::new`. -/
theorem ovr_invoke_error_message_is_constant :
    ovr_invoke "function_table.ovr_Initialize(&params)" (-1) =
      Except.error (OculusError.SdkError "$x failed")
    ∧ ovr_invoke_message "function_table.ovr_Initialize(&params)" =
        ovr_invoke_message "invoker.ovrHmd_ConfigureRendering(...)"
    ∧ ovr_invoke_message "function_table.ovr_Initialize(&params)" ≠
        "function_table.ovr_Initialize(&params) failed" := by
  refine ⟨rfl, rfl, ?_⟩
  decide

/-- Sequential resolution succeeds, with one entry per name, when every
name resolves. -/
theorem resolveAll_ok_of_forall_ok (symbol : String → Except String Nat) :
    ∀ l : List String, (∀ m ∈ l, ∃ p, symbol m = Except.ok p) →
      ∃ ps, resolveAll symbol l = Except.ok ps ∧ ps.length = l.length := by
  intro l
  induction l with
  | nil => exact fun _ => ⟨[], rfl, rfl⟩
  | cons n rest ih =>
    intro h
    obtain ⟨p, hp⟩ := h n (by simp)
    obtain ⟨ps, hps, hlen⟩ := ih (fun m hm => h m (by simp [hm]))
    exact ⟨p :: ps, by simp [resolveAll, hp, hps], by simp [hlen]⟩

/-- Sequential resolution returns the first lookup error: if every name before
`n` resolves and `n` fails with `e`, the whole traversal fails with `e`. -/
theorem resolveAll_first_error (symbol : String → Except String Nat) (e : String) :
    ∀ (pre : List String) (n : String) (post : List String),
      (∀ m ∈ pre, ∃ p, symbol m = Except.ok p) → symbol n = Except.error e →
      resolveAll symbol (pre ++ n :: post) = Except.error e := by
  intro pre
  induction pre with
  | nil =>
    intro n post _ hn
    simp [resolveAll, hn]
  | cons m pre ih =>
    intro n post hpre hn
    obtain ⟨p, hp⟩ := hpre m (by simp)
    have hrest := ih n post (fun m' hm' => hpre m' (by simp [hm'])) hn
    simp [resolveAll, hp, hrest]

/-- Claim C5: `FunctionTable::load` resolves the fixed symbol list eagerly —
if every symbol resolves, it yields a table with one resolved pointer per
listed name; if any lookup fails, the whole construction returns the first
lookup error and no table value is produced. -/
theorem function_table_load_all_or_first_error (symbol : String → Except String Nat) :
    ((∀ m ∈ functionTableNames, ∃ p, symbol m = Except.ok p) →
       ∃ ps, FunctionTable.load symbol = Except.ok ps ∧
         ps.length = functionTableNames.length)
    ∧ ∀ (pre : List String) (n : String) (post : List String) (e : String),
        functionTableNames = pre ++ n :: post →
        (∀ m ∈ pre, ∃ p, symbol m = Except.ok p) →
        symbol n = Except.error e →
        FunctionTable.load symbol = Except.error e := by
  constructor
  · exact fun h => resolveAll_ok_of_forall_ok symbol functionTableNames h
  · intro pre n post e horder hpre hn
    unfold FunctionTable.load
    rw [horder]
    exact resolveAll_first_error symbol e pre n post hpre hn

/-- Concrete resolver for the C5 witness: every symbol resolves. -/
def symAllOkW : String → Except String Nat := fun _ => Except.ok 0

/-- Concrete resolver for the C5 witness: `ovr_Initialize` (the second listed
name) is missing; everything else resolves. -/
def symInitMissingW : String → Except String Nat := fun n =>
  if n = "ovr_Initialize" then Except.error "undefined symbol: ovr_Initialize"
  else Except.ok 7

/-- Witness for claim C5: a fully resolving table succeeds with 19 entries,
and a resolver whose second symbol is missing fails whole with that error. -/
theorem function_table_load_all_or_first_error_witness :
    (∃ ps, FunctionTable.load symAllOkW = Except.ok ps ∧
       ps.length = functionTableNames.length)
    ∧ FunctionTable.load symInitMissingW =
        Except.error "undefined symbol: ovr_Initialize" := by
  constructor
  · exact (function_table_load_all_or_first_error symAllOkW).1 (fun m _ => ⟨0, rfl⟩)
  · exact (function_table_load_all_or_first_error symInitMissingW).2
      ["ovr_Detect"] "ovr_Initialize"
      ["ovr_Shutdown", "ovr_Create", "ovr_Destroy", "ovr_GetHmdDesc",
       "ovr_ConfigureTracking", "ovr_RecenterPose", "ovr_GetFovTextureSize",
       "ovr_GetRenderDesc", "ovr_CreateMirrorTextureGL", "ovr_DestroyMirrorTexture",
       "ovr_CreateSwapTextureSetGL", "ovr_DestroySwapTextureSet",
       "ovr_GetPredictedDisplayTime", "ovr_GetTrackingState", "ovr_CalcEyePoses",
       "ovr_SubmitFrame", "ovrMatrix4f_Projection"]
      "undefined symbol: ovr_Initialize"
      rfl
      (by
        intro m hm
        simp only [List.mem_singleton] at hm
        subst hm
        exact ⟨7, rfl⟩)
      rfl

/-- Claim C6: a `TextureBinding` built from `(size, id)` pairs stores, for each
eye, a viewport positioned at `(0, 0)` with exactly the input size, a
`TextureSize` equal to the input size, and a `TexId` equal to the input id;
`create_binding` is this same pure construction applied to the cached per-eye
sizes — no native call occurs. -/
theorem texture_binding_round_trip (size_l size_r : ovrSizei) (id_l id_r : Nat)
    (rc : RenderContext) :
    ((TextureBinding.new (size_l, id_l) (size_r, id_r)).textures.1.RenderViewport.Pos.x = 0
    ∧ (TextureBinding.new (size_l, id_l) (size_r, id_r)).textures.1.RenderViewport.Pos.y = 0
    ∧ (TextureBinding.new (size_l, id_l) (size_r, id_r)).textures.1.RenderViewport.Size = size_l
    ∧ (TextureBinding.new (size_l, id_l) (size_r, id_r)).textures.1.TextureSize = size_l
    ∧ (TextureBinding.new (size_l, id_l) (size_r, id_r)).textures.1.TexId = id_l)
    ∧ ((TextureBinding.new (size_l, id_l) (size_r, id_r)).textures.2.RenderViewport.Pos.x = 0
    ∧ (TextureBinding.new (size_l, id_l) (size_r, id_r)).textures.2.RenderViewport.Pos.y = 0
    ∧ (TextureBinding.new (size_l, id_l) (size_r, id_r)).textures.2.RenderViewport.Size = size_r
    ∧ (TextureBinding.new (size_l, id_l) (size_r, id_r)).textures.2.TextureSize = size_r
    ∧ (TextureBinding.new (size_l, id_l) (size_r, id_r)).textures.2.TexId = id_r)
    ∧ rc.create_binding id_l id_r =
        TextureBinding.new (rc.eye_texture_sizes.1, id_l) (rc.eye_texture_sizes.2, id_r) :=
  ⟨⟨rfl, rfl, rfl, rfl, rfl⟩, ⟨rfl, rfl, rfl, rfl, rfl⟩, rfl⟩

/-- Claim C7: for fixed near/far planes the projection matrix depends only on
the selected eye's cached field of view — exchanging the two stored per-eye
fovs produces, for each eye label, exactly the matrix the other label produced
before the swap; and two contexts agreeing on one eye's fov agree on that
eye's matrix — whatever the native `ovrMatrix4f_Projection` computes. -/
theorem projection_matrix_depends_only_on_eye_fov
    (native : ovrFovPort → Float → Float → Nat → ovrMatrix4f)
    (rc rc2 : RenderContext) (eye : Eye) (near_z far_z : Float)
    (hfov : rc.eyeFov eye = rc2.eyeFov eye) :
    RenderContext.projection_matrix native rc.swap_fovs eye near_z far_z =
      RenderContext.projection_matrix native rc eye.other near_z far_z
    ∧ RenderContext.projection_matrix native rc eye near_z far_z =
        RenderContext.projection_matrix native rc2 eye near_z far_z := by
  constructor
  · cases eye <;> rfl
  · unfold RenderContext.projection_matrix
    rw [hfov]

/-- Concrete native projection for the C7 witness: echoes the fov's `UpTan`
into every entry, so the result visibly depends on the fov argument. -/
def nativeProjW : ovrFovPort → Float → Float → Nat → ovrMatrix4f :=
  fun fov _ _ _ => { M := fun _ _ => fov.UpTan }

/-- Concrete left-eye fov for witnesses. -/
def fovLW : ovrFovPort := { UpTan := 1.0, DownTan := 1.1, LeftTan := 1.2, RightTan := 1.3 }

/-- Concrete right-eye fov for witnesses (distinct from `fovLW`). -/
def fovRW : ovrFovPort := { UpTan := 2.0, DownTan := 2.1, LeftTan := 2.2, RightTan := 2.3 }

/-- Concrete texture size for witnesses. -/
def sizeW : ovrSizei := { w := 1280, h := 800 }

/-- Concrete eye offset vector for witnesses. -/
def vec3W : ovrVector3f := { x := 0.1, y := 0.2, z := 0.3 }

/-- Concrete `RenderContext` for the C7 witness. -/
def rcW : RenderContext :=
  { eye_texture_sizes := (sizeW, sizeW),
    fovs := (fovLW, fovRW),
    offsets := (vec3W, vec3W) }

/-- Witness for claim C7 at the concrete context `rcW`. -/
theorem projection_matrix_depends_only_on_eye_fov_witness :
    RenderContext.projection_matrix nativeProjW rcW.swap_fovs Eye.Left 0.01 100.0 =
      RenderContext.projection_matrix nativeProjW rcW Eye.Left.other 0.01 100.0
    ∧ RenderContext.projection_matrix nativeProjW rcW Eye.Left 0.01 100.0 =
        RenderContext.projection_matrix nativeProjW rcW Eye.Left 0.01 100.0 :=
  projection_matrix_depends_only_on_eye_fov nativeProjW rcW rcW Eye.Left 0.01 100.0 rfl

/-- Each `&self` method call leaves the `RenderContext` value unchanged. -/
theorem RCOp.apply_id (rc : RenderContext) (op : RCOp) : RCOp.apply rc op = rc := by
  cases op <;> rfl

/-- A sequence of `&self` method calls leaves the `RenderContext` unchanged. -/
theorem applyOps_id (rc : RenderContext) (ops : List RCOp) : applyOps rc ops = rc := by
  induction ops with
  | nil => rfl
  | cons op rest ih =>
    show applyOps (RCOp.apply rc op) rest = rc
    rw [RCOp.apply_id, ih]

/-- Claim C8: for any `RenderContext` produced by `CreateRenderContext::new`,
`target_texture_size` returns, for each eye, the pair cached at construction
(the `ovrHmd_GetFovTextureSize` answer for that eye's `MaxEyeFov` at scale 1),
and its value is unchanged by any sequence of operations on the context. -/
theorem target_texture_size_stable
    (hmd : HmdEnv) (rc : RenderContext) (ops : List RCOp) (eye : Eye)
    (h : RenderContext.new hmd = Except.ok rc) :
    (applyOps rc ops).target_texture_size eye = rc.target_texture_size eye
    ∧ rc.target_texture_size eye =
        (match eye with
         | Eye.Left =>
             (i32_as_u32 (hmd.getFovTextureSize 0 hmd.MaxEyeFov.1 1.0).w,
              i32_as_u32 (hmd.getFovTextureSize 0 hmd.MaxEyeFov.1 1.0).h)
         | Eye.Right =>
             (i32_as_u32 (hmd.getFovTextureSize 1 hmd.MaxEyeFov.2 1.0).w,
              i32_as_u32 (hmd.getFovTextureSize 1 hmd.MaxEyeFov.2 1.0).h)) := by
  refine ⟨by rw [applyOps_id], ?_⟩
  unfold RenderContext.new at h
  cases hcfg : ovr_invoke "invoker.ovrHmd_ConfigureRendering(...)" hmd.configure_rendering_result with
  | error e => rw [hcfg] at h; exact absurd h (by simp)
  | ok u =>
    rw [hcfg] at h
    cases hatt : (if hmd.is_direct then
                    ovr_invoke "invoker.ovrHmd_AttachToWindow(...)" hmd.attach_result
                  else Except.ok ()) with
    | error e => rw [hatt] at h; exact absurd h (by simp)
    | ok u' =>
      rw [hatt] at h
      simp only [Except.ok.injEq] at h
      subst h
      cases eye <;> rfl

/-- Concrete native responses for the C8 witness. -/
def hmdW : HmdEnv :=
  { configure_rendering_result := 1,
    eye_render_desc := ({ Fov := fovLW, HmdToEyeViewOffset := vec3W },
                        { Fov := fovRW, HmdToEyeViewOffset := vec3W }),
    is_direct := false,
    attach_result := 1,
    MaxEyeFov := (fovLW, fovRW),
    getFovTextureSize := fun eyeIndex _ _ =>
      if eyeIndex = 0 then { w := 1182, h := 1464 } else { w := 1186, h := 1464 } }

/-- The `RenderContext` that `CreateRenderContext::new` produces from `hmdW`. -/
def rcFromHmdW : RenderContext :=
  { eye_texture_sizes := (hmdW.getFovTextureSize 0 hmdW.MaxEyeFov.1 1.0,
                          hmdW.getFovTextureSize 1 hmdW.MaxEyeFov.2 1.0),
    fovs := (hmdW.eye_render_desc.1.Fov, hmdW.eye_render_desc.2.Fov),
    offsets := (hmdW.eye_render_desc.1.HmdToEyeViewOffset,
                hmdW.eye_render_desc.2.HmdToEyeViewOffset) }

/-- Witness for claim C8: a concrete construction followed by a concrete
operation sequence. -/
theorem target_texture_size_stable_witness :
    (applyOps rcFromHmdW
        [RCOp.recenter_pose, RCOp.create_binding 3 4,
         RCOp.target_texture_size Eye.Right]).target_texture_size Eye.Left =
      rcFromHmdW.target_texture_size Eye.Left
    ∧ rcFromHmdW.target_texture_size Eye.Left =
        (i32_as_u32 (hmdW.getFovTextureSize 0 hmdW.MaxEyeFov.1 1.0).w,
         i32_as_u32 (hmdW.getFovTextureSize 0 hmdW.MaxEyeFov.1 1.0).h) :=
  target_texture_size_stable hmdW rcFromHmdW
    [RCOp.recenter_pose, RCOp.create_binding 3 4, RCOp.target_texture_size Eye.Right]
    Eye.Left rfl

/-- Claim C9: `Frame::eye_poses` yields poses in the HMD descriptor's
`EyeRenderOrder`, not in fixed index order: order `[0, 1]` yields left then
right, and order `[1, 0]` (right eye reported first) yields the right eye's
pose first — each entry repacking exactly the stored pose for that eye index. -/
theorem frame_eye_poses_follow_render_order (poses : Fin 2 → ovrPosef) :
    Frame.eye_poses [0, 1] poses =
      some [{ eye := Eye.Left,
              orientation := ((poses 0).Orientation.w,
                ((poses 0).Orientation.x, (poses 0).Orientation.y, (poses 0).Orientation.z)),
              position := ((poses 0).Position.x, (poses 0).Position.y, (poses 0).Position.z) },
            { eye := Eye.Right,
              orientation := ((poses 1).Orientation.w,
                ((poses 1).Orientation.x, (poses 1).Orientation.y, (poses 1).Orientation.z)),
              position := ((poses 1).Position.x, (poses 1).Position.y, (poses 1).Position.z) }]
    ∧ Frame.eye_poses [1, 0] poses =
      some [{ eye := Eye.Right,
              orientation := ((poses 1).Orientation.w,
                ((poses 1).Orientation.x, (poses 1).Orientation.y, (poses 1).Orientation.z)),
              position := ((poses 1).Position.x, (poses 1).Position.y, (poses 1).Position.z) },
            { eye := Eye.Left,
              orientation := ((poses 0).Orientation.w,
                ((poses 0).Orientation.x, (poses 0).Orientation.y, (poses 0).Orientation.z)),
              position := ((poses 0).Position.x, (poses 0).Position.y, (poses 0).Position.z) }] :=
  ⟨rfl, rfl⟩

/-- Claim C10 counterexample: on Linux the string handed to the dynamic-library
open call is not the bare versioned shared-object name the claim states — it
carries a hard-coded absolute directory. -/
theorem load_ovr_linux_name_not_bare : load_ovr_linux_name true ≠ spec_linux_name true := by
  decide

/-- Claim C10 (amended): the Windows DLL name and the macOS framework bundle
path are exactly the claimed patterns; on Linux the claimed versioned `.so`
name is used but prefixed with the hard-coded absolute directory
`/usr/local/lib/`. -/
theorem load_ovr_names_follow_platform_patterns (w64 : Bool) :
    load_ovr_windows_name w64 = spec_windows_name w64
    ∧ load_ovr_macos_name = spec_macos_name
    ∧ load_ovr_linux_name w64 = "/usr/local/lib/" ++ spec_linux_name w64 := by
  cases w64 <;> exact ⟨rfl, rfl, by decide⟩

end Rovr
